import Mathlib

/-!
Verification development for the Factory_GPT repository
(`src/Factory_GPT/factory_gpt.py`).

The Python class `FactoryGPT` is shallowly embedded here.  External
collaborators (the Azure OpenAI language model, the pyodbc database
connection, and the `json.loads` parser) are modelled as oracles packaged
in an `Env` structure; everything the repository itself computes — the
SQL safety gate, the intent router, the candidate-iteration loop of
`ask`, the exception-handling structure, the response formatter, the
duration formatter and the machine-name tokenizer — is translated
faithfully from the source.
-/

/-! ### String helpers (Python `str.upper`, `str.lower`, substring `in`) -/

/-- Python `needle in hay` on strings: `needle` occurs as a contiguous
substring of `hay`.  Implemented as a scan over the suffixes of `hay`. -/
def containsSubstr (needle hay : String) : Bool :=
  hay.data.tails.any (fun t => needle.data.isPrefixOf t)

/-- Model of Python `str.upper()` (the queries handled by the code are
ASCII, where Python and Lean agree character by character). -/
def pyUpper (s : String) : String :=
  String.mk (s.data.map Char.toUpper)

/-- Model of Python `str.lower()` (ASCII agreement, as for `pyUpper`). -/
def pyLower (s : String) : String :=
  String.mk (s.data.map Char.toLower)

/-- Model of Python `str.strip()`: drop whitespace from both ends. -/
def pyStrip (s : String) : String :=
  String.mk (((s.data.dropWhile Char.isWhitespace).reverse.dropWhile
    Char.isWhitespace).reverse)

/-! ### The SQL safety gate and `_execute_sql` (lines 158–177) -/

/-- The `disallowed_keywords` list of `FactoryGPT._execute_sql`. -/
def disallowed_keywords : List String :=
  ["DELETE", "DROP", "UPDATE", "INSERT", "TRUNCATE", "ALTER", "EXEC", "GRANT"]

/-- The guard of the safety gate:
`any(keyword in sql_upper for keyword in disallowed_keywords)`. -/
def gateBlocked (sql : String) : Bool :=
  disallowed_keywords.any (fun keyword => containsSubstr keyword (pyUpper sql))

/-- The error string returned by the safety gate. -/
def restrictedKeywordsMsg : String :=
  "SQL Error: Query contains restricted keywords (e.g., DELETE, DROP, UPDATE)."

/-- A database cell value as it appears in a row dictionary built by
`_execute_sql` (`dict(zip(columns, row))`). -/
inductive Val where
  | vInt (n : Int)
  | vNum (q : Rat)
  | vStr (s : String)
  | vNull
  deriving DecidableEq, Repr

/-- One result row: a mapping from column name to value, in column order. -/
abbrev Row := List (String × Val)

/-- Outcome of one pyodbc execution, the oracle behind the `try` block of
`_execute_sql`: either the fetched rows or a `pyodbc.Error` message. -/
inductive DbResult where
  | rows (rs : List Row)
  | err (e : String)
  deriving DecidableEq, Repr

/-- `FactoryGPT._execute_sql`: the safety gate followed by the scoped
execution.  Returns the Python pair `(results, error)`. -/
def execute_sql (dbExec : String → DbResult) (sql : String) :
    Option (List Row) × Option String :=
  if gateBlocked sql then
    (none, some restrictedKeywordsMsg)
  else
    match dbExec sql with
    | .rows rs => (some rs, none)
    | .err e => (none, some ("SQL Error: " ++ e))

/-! ### The intent router `_understand_intent` (lines 199–211) -/

/-- The `general_indicators` list of `_understand_intent`. -/
def general_indicators : List String :=
  ["how are you", "what\x27s up", "how do you feel", "tell me about yourself",
   "what can you do", "who are you", "introduce yourself", "are you gpt",
   "hello", "hi", "good morning", "good afternoon", "good evening", "hey"]

/-- `FactoryGPT._understand_intent`: substring match of the lowercased
question against the fixed indicator list. -/
def understand_intent (question : String) : String :=
  if general_indicators.any
      (fun indicator => containsSubstr indicator (pyLower question)) then
    "chat"
  else
    "data"

/-! ### Python numeric formatting (format specs used by the formatter) -/

/-- Banker's rounding to the nearest integer, the rounding Python's
format specs apply to exactly representable values. -/
def roundHalfEven (q : Rat) : Int :=
  let n := Rat.floor q
  let r := q - n
  if r < 1/2 then n
  else if 1/2 < r then n + 1
  else if n % 2 = 0 then n else n + 1

/-- Walk a reversed digit list, inserting a comma before every position
that is a positive multiple of three. -/
def commaRevAux : List Char → Nat → List Char
  | [], _ => []
  | c :: cs, i =>
    if i ≠ 0 && i % 3 == 0 then ',' :: c :: commaRevAux cs (i + 1)
    else c :: commaRevAux cs (i + 1)

/-- Thousands grouping of a natural number, as in Python's `,` spec. -/
def commaGroup (n : Nat) : String :=
  String.mk (commaRevAux (toString n).data.reverse 0).reverse

/-- Left-pad a string with zeros up to width `n`. -/
def padZeros (s : String) (n : Nat) : String :=
  String.mk (List.replicate (n - s.length) '0') ++ s

/-- Model of a Python fixed-point format spec applied to an exact value:
`comma` is thousands grouping, `prec` the number of decimals. -/
def pyFormatRat (comma : Bool) (prec : Nat) (x : Rat) : String :=
  let neg := x < 0
  let ax := |x|
  let scaled := (roundHalfEven (ax * ((10 : Rat) ^ prec))).toNat
  let ip := scaled / 10 ^ prec
  let fp := scaled % 10 ^ prec
  let ipStr := if comma then commaGroup ip else toString ip
  let fpStr := if prec = 0 then "" else "." ++ padZeros (toString fp) prec
  (if neg then "-" else "") ++ ipStr ++ fpStr

/-- Python `f"{x:,.0f}"`. -/
def pyFormatComma0 (x : Rat) : String := pyFormatRat true 0 x

/-- Python `f"{x:,.2f}"`. -/
def pyFormatComma2 (x : Rat) : String := pyFormatRat true 2 x

/-- Python `f"{x:.1f}"`. -/
def pyFormat1 (x : Rat) : String := pyFormatRat false 1 x

/-- Digit characters to the natural number they denote. -/
def digitsToNat (ds : List Char) : Nat :=
  ds.foldl (fun a c => a * 10 + (c.toNat - 48)) 0

/-- Model of Python `float(string)` restricted to plain decimal literals
(optional surrounding whitespace, optional sign, digits with at most one
point); exponent, infinity and nan spellings are outside the model. -/
def parseFloatStr (s : String) : Option Rat :=
  let cs := (s.data.dropWhile Char.isWhitespace).reverse.dropWhile Char.isWhitespace
  let cs := cs.reverse
  let signed : Bool × List Char :=
    match cs with
    | '-' :: r => (true, r)
    | '+' :: r => (false, r)
    | r => (false, r)
  let body := signed.2
  let ip := body.takeWhile Char.isDigit
  let rest := body.dropWhile Char.isDigit
  let mag : Option Rat :=
    match rest with
    | [] => if ip.isEmpty then none else some (digitsToNat ip)
    | '.' :: fr =>
      if fr.all Char.isDigit && !(ip.isEmpty && fr.isEmpty) then
        some ((digitsToNat ip : Rat) + (digitsToNat fr : Rat) / (10 : Rat) ^ fr.length)
      else none
    | _ => none
  mag.map (fun m => if signed.1 then -m else m)

/-- Model of Python `float(value)` on a cell value: numbers convert,
decimal strings parse, `None` and other strings raise
(`ValueError`/`TypeError`, handled by the callers' `except` clauses). -/
def pyFloat : Val → Option Rat
  | .vInt n => some n
  | .vNum q => some q
  | .vStr s => parseFloatStr s
  | .vNull => none

/-- Model of Python `repr`/`str` of a float holding an exact decimal
value; non-terminating decimals are rendered as a fraction, a model
boundary never exercised by the claims. -/
def floatRepr (q : Rat) : String :=
  let sign := if q < 0 then "-" else ""
  let a := |q|
  match (List.range 18).find? (fun k => (a * (10 : Rat) ^ k).den = 1) with
  | some 0 => sign ++ toString a.num ++ ".0"
  | some (k + 1) =>
    let m := (a * (10 : Rat) ^ (k + 1)).num.toNat
    sign ++ toString (m / 10 ^ (k + 1)) ++ "." ++
      padZeros (toString (m % 10 ^ (k + 1))) (k + 1)
  | none => sign ++ toString a.num ++ "/" ++ toString a.den

/-- Python `str(value)` / f-string interpolation of a cell value. -/
def pyStr : Val → String
  | .vStr s => s
  | .vInt n => toString n
  | .vNum q => floatRepr q
  | .vNull => "None"

/-! ### `_format_time_duration` (lines 416–430) -/

/-- `FactoryGPT._format_time_duration`: convert to float (falling back to
`str` when the conversion raises), then render seconds with an hours or
minutes annotation past the 3600 and 60 thresholds. -/
def format_time_duration (seconds : Val) : String :=
  match pyFloat seconds with
  | none => pyStr seconds
  | some s =>
    if 3600 < s then
      pyFormatComma0 s ++ " seconds (~" ++ pyFormat1 (s / 3600) ++ " hours)"
    else if 60 < s then
      pyFormatComma0 s ++ " seconds (~" ++ pyFormat1 (s / 60) ++ " minutes)"
    else
      pyFormatComma0 s ++ " seconds"

/-! ### The entity vocabulary learner `_learn_machines_from_column`
(lines 133–156) -/

/-- Model of `re.split(r'[^a-zA-Z0-9]', name)`: cut at every
non-alphanumeric character, keeping empty pieces, accumulator reversed. -/
def splitNonAlnumAux : List Char → List Char → List (List Char)
  | [], acc => [acc.reverse]
  | c :: cs, acc =>
    if c.isAlphanum then splitNonAlnumAux cs (c :: acc)
    else acc.reverse :: splitNonAlnumAux cs []

/-- `re.split(r'[^a-zA-Z0-9]', name)` over the characters of `name`. -/
def splitNonAlnum (l : List Char) : List (List Char) :=
  splitNonAlnumAux l []

/-- Model of `re.findall(r'[A-Z][a-z]*|[0-9]+|[a-z]+', name)`: scan left
to right, at each position taking the greedy match of the first branch of
the alternation that applies and skipping non-matching characters.  The
fuel argument (initially the input length, consumed at least one
character per step) keeps the recursion structural. -/
def camelFindallAux : Nat → List Char → List (List Char)
  | 0, _ => []
  | _, [] => []
  | fuel + 1, c :: cs =>
    if c.isUpper then
      (c :: cs.takeWhile Char.isLower) :: camelFindallAux fuel (cs.dropWhile Char.isLower)
    else if c.isDigit then
      (c :: cs.takeWhile Char.isDigit) :: camelFindallAux fuel (cs.dropWhile Char.isDigit)
    else if c.isLower then
      (c :: cs.takeWhile Char.isLower) :: camelFindallAux fuel (cs.dropWhile Char.isLower)
    else
      camelFindallAux fuel cs

/-- `re.findall(r'[A-Z][a-z]*|[0-9]+|[a-z]+', name)`. -/
def camelFindall (l : List Char) : List (List Char) :=
  camelFindallAux l.length l

/-- `words + camel_case_tokens` for one machine name. -/
def tokensOfName (name : String) : List String :=
  (splitNonAlnum name.data ++ camelFindall name.data).map String.mk

/-- The `machine_intelligence` dictionary: token to the set of original
machine names, the set kept as a duplicate-free list in insertion order. -/
abbrev MachineIntel := List (String × List String)

/-- Dictionary lookup in `machine_intelligence`. -/
def miLookup (mi : MachineIntel) (tok : String) : Option (List String) :=
  (mi.find? (fun p => p.1 == tok)).map (fun p => p.2)

/-- The body of the inner loop: ensure the token has an entry and add the
original name to its set. -/
def miAdd : MachineIntel → String → String → MachineIntel
  | [], tok, name => [(tok, [name])]
  | (t, names) :: rest, tok, name =>
    if t == tok then
      (t, if names.contains name then names else names ++ [name]) :: rest
    else
      (t, names) :: miAdd rest tok name

/-- Process all tokens of one machine name: lowercase, strip, keep only
tokens longer than two characters. -/
def learnName (mi : MachineIntel) (name : String) : MachineIntel :=
  (tokensOfName name).foldl
    (fun mi token =>
      let clean := pyStrip (pyLower token)
      if 2 < clean.length then miAdd mi clean name else mi)
    mi

/-- `FactoryGPT._learn_machines_from_column`, applied to the distinct
non-null values fetched from one column (`if not name: continue` skips
falsy values). -/
def learn_machines_from_column (mi : MachineIntel) (machine_names : List String) :
    MachineIntel :=
  machine_names.foldl
    (fun mi name => if name == "" then mi else learnName mi name) mi

/-! ### `format_conversational_response` (lines 353–414)

The Python function is one body of sequential ifs; it is split here into
one definition per template family (the scalar case, the
machine-plus-metric case, the listing case, the `json.dumps` fallback)
composed by `format_conversational_response` in the source's order. -/

/-- Python truthiness of a cell value. -/
def valTruthy : Val → Bool
  | .vStr s => !(s == "")
  | .vInt n => !(n == 0)
  | .vNum q => !(q == 0)
  | .vNull => false

/-- Python `row.get(k)`: `none` models the `None` default. -/
def rowGet (row : Row) (k : String) : Option Val :=
  (row.find? (fun kv => kv.1 == k)).map (fun kv => kv.2)

/-- JSON escaping of one character (`json.dumps` on the printable
strings that occur here; further control-character escapes are outside
the model). -/
def jsonEscapeChar (c : Char) : List Char :=
  if c = '"' then ['\\', '"']
  else if c = '\\' then ['\\', '\\']
  else if c = '\n' then ['\\', 'n']
  else if c = '\t' then ['\\', 't']
  else if c = '\r' then ['\\', 'r']
  else [c]

/-- A JSON string literal. -/
def jsonQuote (s : String) : String :=
  "\"" ++ String.mk (s.data.map jsonEscapeChar).flatten ++ "\""

/-- One cell value as `json.dumps` renders it. -/
def jsonDumpVal : Val → String
  | .vStr s => jsonQuote s
  | .vInt n => toString n
  | .vNum q => floatRepr q
  | .vNull => "null"

/-- One row dictionary as `json.dumps(..., indent=2)` renders it at
nesting depth one. -/
def jsonDumpRow (row : Row) : String :=
  match row with
  | [] => "  \x7b\x7d"
  | _ =>
    "  \x7b\n" ++
      String.intercalate ",\n"
        (row.map (fun kv => "    " ++ jsonQuote kv.1 ++ ": " ++ jsonDumpVal kv.2)) ++
      "\n  \x7d"

/-- `json.dumps(result, indent=2)` for a list of row dictionaries. -/
def pyJsonDumps (result : List Row) : String :=
  match result with
  | [] => "[]"
  | _ => "[\n" ++ String.intercalate ",\n" (result.map jsonDumpRow) ++ "\n]"

/-- The fallback return of `format_conversational_response` (line 414). -/
def fallbackRender (result : List Row) : String :=
  "Here\x27s what I found:\n```\n" ++ pyJsonDumps result ++ "\n```"

/-- Case 1 of the formatter (lines 360–382): a single row with a single
value. -/
def case1Render (question_lower : String) (value0 : Val) : String :=
  match pyFloat value0 with
  | none => "The result is: " ++ pyStr value0
  | some value =>
    if ["production", "count"].any (fun word => containsSubstr word question_lower) then
      "ðŸ“Š The total production count is **" ++
        pyFormatComma0 value ++ " units**."
    else if containsSubstr "downtime" question_lower then
      if containsSubstr "average" question_lower || containsSubstr "avg" question_lower then
        "â±ï¸ The average downtime is **" ++
          format_time_duration (.vNum value) ++ "**."
      else if containsSubstr "total" question_lower || containsSubstr "sum" question_lower then
        "â±ï¸ The total downtime is **" ++
          format_time_duration (.vNum value) ++ "**."
      else
        "â±ï¸ The most recent downtime is **" ++
          format_time_duration (.vNum value) ++ "**."
    else if ["cycletime", "cycle time"].any (fun word => containsSubstr word question_lower) then
      if containsSubstr "average" question_lower || containsSubstr "avg" question_lower then
        "â²ï¸ The average cycle time is **" ++
          pyFormatComma2 value ++ " seconds**."
      else
        "â²ï¸ The most recent cycle time is **" ++
          pyFormatComma2 value ++ " seconds**."
    else
      "The result is **" ++ pyFormatComma2 value ++ "**."

/-- Case 2 of the formatter (lines 385–402): a single row with several
values.  Returns `none` where the Python body falls through without a
`return` (no truthy machine name and value key, or no matching metric
keyword in the question). -/
def case2Render (question_lower : String) (row : Row) : Option String :=
  let g1 := (rowGet row "MACHINE_NAME").getD .vNull
  let machine_name := if valTruthy g1 then g1 else (rowGet row "MACHINE_GROUP").getD .vNull
  let value_key := (row.find? (fun kv =>
    !(kv.1 == "MACHINE_NAME") && !(kv.1 == "MACHINE_GROUP"))).map (fun kv => kv.1)
  match value_key with
  | none => none
  | some k =>
    if valTruthy machine_name && !(k == "") then
      let raw := (rowGet row k).getD .vNull
      match pyFloat raw with
      | none => some ("Found data for **" ++ pyStr machine_name ++ "**: " ++ pyStr raw)
      | some value =>
        let operation := if containsSubstr "highest" question_lower then "highest" else "lowest"
        if containsSubstr "downtime" question_lower then
          some ("ðŸ­ The machine with the " ++ operation ++
            " downtime is **" ++ pyStr machine_name ++ "** with **" ++
            format_time_duration (.vNum value) ++ "**.")
        else if containsSubstr "cycletime" question_lower ||
            containsSubstr "cycle time" question_lower then
          some ("ðŸ­ The machine with the " ++ operation ++
            " cycle time is **" ++ pyStr machine_name ++ "** with **" ++
            pyFormatComma2 value ++ " seconds**.")
        else if containsSubstr "production" question_lower then
          some ("ðŸ­ The machine with the " ++ operation ++
            " production is **" ++ pyStr machine_name ++ "** with **" ++
            pyFormatComma0 value ++ " units**.")
        else none
    else none

/-- Case 3 of the formatter (lines 405–411): several rows; renders the
first five, numbered from one, with the true total in the header. -/
def case3Render (result : List Row) : String :=
  let formatted_results := (result.take 5).enum.map (fun p =>
    toString (p.1 + 1) ++ ". " ++
      String.intercalate ", " (p.2.map (fun kv => kv.1 ++ ": " ++ pyStr kv.2)))
  "ðŸ“‹ Found " ++ toString result.length ++
    " results. Here are the top 5:\n\n" ++ String.intercalate "\n" formatted_results

/-- `FactoryGPT.format_conversational_response`: dispatch on the shape
of the (list-of-dicts) result exactly as the source's sequential ifs
do: one row and one column to Case 1, one row and several columns to
Case 2 (falling through to the fallback), several rows to Case 3, and
everything else — empty list or a single empty row — to the fallback. -/
def format_conversational_response (question : String) (result : List Row) : String :=
  let question_lower := pyLower question
  match result with
  | [] => fallbackRender result
  | row0 :: rest =>
    if rest.isEmpty then
      match row0 with
      | [kv] => case1Render question_lower kv.2
      | _ :: _ :: _ => (case2Render question_lower row0).getD (fallbackRender result)
      | [] => fallbackRender result
    else case3Render result

/-! ### JSON values, Python exceptions, and the `ask` pipeline
(lines 213–351) -/

/-- A parsed JSON value: the possible results of `json.loads` on the
planning model's preprocessed output. -/
inductive Json where
  | null
  | bool (b : Bool)
  | num (q : Rat)
  | str (s : String)
  | arr (xs : List Json)
  | obj (kvs : List (String × Json))

/-- The uncaught Python exception classes reachable on the `ask` path:
`TypeError` from subscripting or iterating a non-container, and
`AttributeError` from calling `.get` on a non-dict. -/
inductive PyErr where
  | typeError
  | attributeError
  deriving DecidableEq, Repr

/-- First-match lookup in a JSON object (a Python dict holds each key
once). -/
def lookupKV (kvs : List (String × Json)) (k : String) : Option Json :=
  (kvs.find? (fun kv => kv.1 == k)).map (fun kv => kv.2)

/-- Python truthiness of a JSON value. -/
def jsonTruthy : Json → Bool
  | .null => false
  | .bool b => b
  | .num q => !(q == 0)
  | .str s => !(s == "")
  | .arr xs => !xs.isEmpty
  | .obj kvs => !kvs.isEmpty

/-- Whether a JSON value is an object (a Python dict). -/
def isObjB : Json → Bool
  | .obj _ => true
  | _ => false

/-- Python iteration (`for i, candidate in enumerate(candidates)`):
lists yield their elements, strings their characters, dicts their keys;
numbers, booleans and `None` raise `TypeError`. -/
def pyIterElems : Json → Except PyErr (List Json)
  | .arr xs => .ok xs
  | .str s => .ok (s.data.map (fun c => .str (String.mk [c])))
  | .obj kvs => .ok (kvs.map (fun kv => .str kv.1))
  | _ => .error .typeError

/-- One entry of `conversation_history`; `sql_executed` models the key
present only on assistant turns of answered data questions. -/
structure Turn where
  role : String
  content : String
  sql_executed : Option String := none
  deriving DecidableEq, Repr

/-- Oracles for the external collaborators `ask` consults: `chatAnswer`
is the stripped content of the conversation-branch model call,
`planParse` the outcome of `json.loads` on the preprocessed planning
output (`none` models `json.JSONDecodeError`), `synth` the stripped SQL
text produced by the generation call from one candidate's `table` and
`column` values, and `dbExec` the database behaviour behind
`_execute_sql`. -/
structure Env where
  chatAnswer : String → List Turn → String
  planParse : String → List Turn → Option Json
  synth : String → Json → Json → String
  dbExec : String → DbResult

/-- The planning-failure message of `ask` (line 258). -/
def planFailMsg : String :=
  "My apologies, I was unable to form an initial plan. Please rephrase your question."

/-- The candidate-exhaustion message of `ask` (line 351). -/
def noAnswerMsg : String :=
  "I couldn\x27t find a definitive answer in the database. Please try rephrasing your question or check if the data exists."

/-- The user turn appended to `conversation_history`. -/
def userTurn (question : String) : Turn := ⟨"user", question, none⟩

/-- The assistant turn appended to `conversation_history`. -/
def assistantTurn (answer : String) (sql : Option String) : Turn :=
  ⟨"assistant", answer, sql⟩

/-- Stage 2 of `ask` (lines 282–334): walk the candidates in order; a
non-dict candidate raises `AttributeError` at `candidate.get`; missing
or falsy `table`/`column`, a safety-gate rejection, a database error, or
an empty result set abandon the candidate; the first candidate with a
non-empty result set stops the loop with its rows and SQL text. -/
def stage2 (env : Env) (question : String) :
    List Json → Except PyErr (Option (List Row × String))
  | [] => .ok none
  | candidate :: rest =>
    match candidate with
    | .obj kvs =>
      let table := (lookupKV kvs "table").getD .null
      let column := (lookupKV kvs "column").getD .null
      if !(jsonTruthy table && jsonTruthy column) then stage2 env question rest
      else
        match execute_sql env.dbExec (env.synth question table column) with
        | (_, some _) => stage2 env question rest
        | (some (r :: rs), none) =>
          .ok (some (r :: rs, env.synth question table column))
        | (some [], none) => stage2 env question rest
        | (none, none) => stage2 env question rest
    | _ => .error .attributeError

/-- The outcome of one candidate in isolation: its rows and SQL text
when it succeeds, `none` when it is skipped or abandoned. -/
def candTry (env : Env) (question : String) (candidate : Json) :
    Option (List Row × String) :=
  match candidate with
  | .obj kvs =>
    let table := (lookupKV kvs "table").getD .null
    let column := (lookupKV kvs "column").getD .null
    if jsonTruthy table && jsonTruthy column then
      match execute_sql env.dbExec (env.synth question table column) with
      | (_, some _) => none
      | (some (r :: rs), none) => some (r :: rs, env.synth question table column)
      | (some [], none) => none
      | (none, none) => none
    else none
  | _ => none

/-- The data branch of `ask`, from the parsed planning output onwards:
decode errors and a missing `candidates` key are caught (lines 256–258),
a non-dict result raises `TypeError` at the `["candidates"]` subscript,
then the candidate loop runs and either the first success is formatted
(appending both turns, the assistant one carrying `sql_executed`) or the
exhaustion message is returned. -/
def askPlan (env : Env) (hist : List Turn) (question : String) :
    Option Json → Except PyErr (String × List Turn)
  | none => .ok (planFailMsg, hist)
  | some (.obj kvs) =>
    match lookupKV kvs "candidates" with
    | none => .ok (planFailMsg, hist)
    | some cval =>
      match pyIterElems cval with
      | .error e => .error e
      | .ok candidates =>
        match stage2 env question candidates with
        | .error e => .error e
        | .ok none => .ok (noAnswerMsg, hist)
        | .ok (some (rows, sql)) =>
          let answer := format_conversational_response question rows
          .ok (answer, hist ++ [userTurn question, assistantTurn answer (some sql)])
  | some _ => .error .typeError

/-- `FactoryGPT.ask`: route intent; the chat branch answers from the
conversation model and appends both turns; the data branch hands the
parsed planning output to `askPlan`. -/
def ask (env : Env) (hist : List Turn) (question : String) :
    Except PyErr (String × List Turn) :=
  if understand_intent question == "chat" then
    let answer := env.chatAnswer question hist
    .ok (answer, hist ++ [userTurn question, assistantTurn answer none])
  else
    askPlan env hist question (env.planParse question hist)

/-- A concrete environment for the iteration-order scenario: candidate 1
synthesizes a gate-blocked query, candidate 2 a query with an empty
result, candidate 3 a query that returns one row. -/
def envC2 : Env :=
  ⟨fun _ _ => "",
   fun _ _ => some (.obj [("candidates", .arr
     [.obj [("table", .str "t1"), ("column", .str "c1")],
      .obj [("table", .str "t2"), ("column", .str "c2")],
      .obj [("table", .str "t3"), ("column", .str "c3")]])]),
   fun _ table _ =>
     match table with
     | .str "t1" => "DELETE FROM x"
     | .str "t2" => "SELECT empty"
     | _ => "SELECT good",
   fun sql =>
     if sql == "SELECT empty" then .rows []
     else if sql == "SELECT good" then .rows [[("CNT", .vInt 7)]]
     else .err "boom"⟩

/-- A concrete environment whose planning output parses to a JSON array. -/
def envC4 : Env :=
  ⟨fun _ _ => "", fun _ _ => some (.arr []), fun _ _ _ => "", fun _ => .rows []⟩

/-- A concrete environment whose planning output fails to parse. -/
def envC4b : Env :=
  ⟨fun _ _ => "", fun _ _ => none, fun _ _ _ => "", fun _ => .rows []⟩

/-- A concrete environment whose planning output parses to an object
without a `candidates` key. -/
def envC9good : Env :=
  ⟨fun _ _ => "", fun _ _ => some (.obj []), fun _ _ _ => "", fun _ => .rows []⟩

/-- A concrete environment whose planning output parses to a JSON array
(not an object). -/
def envC9bad : Env :=
  ⟨fun _ _ => "", fun _ _ => some (.arr []), fun _ _ _ => "", fun _ => .rows []⟩

/-- A concrete environment whose planning output fails to parse. -/
def envC10 : Env :=
  ⟨fun _ _ => "", fun _ _ => none, fun _ _ _ => "", fun _ => .rows []⟩

/-- Eight one-column rows. -/
def eightRows : List Row :=
  [[("M", .vStr "m1")], [("M", .vStr "m2")], [("M", .vStr "m3")], [("M", .vStr "m4")],
   [("M", .vStr "m5")], [("M", .vStr "m6")], [("M", .vStr "m7")], [("M", .vStr "m8")]]

/-! ### Supporting lemmas -/

theorem containsSubstr_iff (needle hay : String) :
    containsSubstr needle hay = true ↔ needle.data <:+: hay.data := by
  unfold containsSubstr
  rw [List.any_eq_true]
  constructor
  · rintro ⟨t, ht, hp⟩
    rw [List.mem_tails] at ht
    rw [ List.isPrefixOf_iff_prefix] at hp
    exact List.infix_iff_prefix_suffix.mpr ⟨t, hp, ht⟩
  · intro h
    obtain ⟨t, hp, ht⟩ := List.infix_iff_prefix_suffix.mp h
    exact ⟨t, (List.mem_tails t hay.data).mpr ht, List.isPrefixOf_iff_prefix.mpr hp⟩

theorem gateBlocked_iff (sql : String) :
    gateBlocked sql = true ↔
      ∃ kw ∈ disallowed_keywords, kw.data <:+: (pyUpper sql).data := by
  unfold gateBlocked
  rw [List.any_eq_true]
  constructor
  · rintro ⟨kw, hkw, h⟩
    exact ⟨kw, hkw, (containsSubstr_iff _ _).mp h⟩
  · rintro ⟨kw, hkw, h⟩
    exact ⟨kw, hkw, (containsSubstr_iff _ _).mpr h⟩

theorem understand_intent_chat_iff (question : String) :
    understand_intent question = "chat" ↔
      ∃ p ∈ general_indicators, p.data <:+: (pyLower question).data := by
  unfold understand_intent
  cases hany : general_indicators.any
      (fun indicator => containsSubstr indicator (pyLower question)) with
  | true =>
    rw [if_pos rfl]
    constructor
    · intro _
      obtain ⟨p, hp, hc⟩ := List.any_eq_true.mp hany
      exact ⟨p, hp, (containsSubstr_iff _ _).mp hc⟩
    · intro _
      rfl
  | false =>
    rw [if_neg (by decide)]
    constructor
    · intro hcontra
      exact absurd hcontra (by decide)
    · rintro ⟨p, hp, hinf⟩
      have hx : general_indicators.any
          (fun indicator => containsSubstr indicator (pyLower question)) = true :=
        List.any_eq_true.mpr ⟨p, hp, (containsSubstr_iff _ _).mpr hinf⟩
      rw [hany] at hx
      exact absurd hx (by decide)

theorem stage2_eq_findSome (env : Env) (question : String) :
    ∀ cands : List Json, (∀ c ∈ cands, isObjB c = true) →
      stage2 env question cands = .ok (List.findSome? (candTry env question) cands) := by
  intro cands
  induction cands with
  | nil => intro _; rfl
  | cons c cs ih =>
    intro h
    have hc := h c (List.mem_cons_self c cs)
    have hrest := ih (fun x hx => h x (List.mem_cons_of_mem c hx))
    cases c with
    | obj kvs =>
      rw [List.findSome?_cons]
      cases htc : (jsonTruthy ((lookupKV kvs "table").getD .null) &&
          jsonTruthy ((lookupKV kvs "column").getD .null)) with
      | false =>
        simp only [stage2, candTry, htc, Bool.not_false, if_true,
          Bool.false_eq_true, if_false]
        exact hrest
      | true =>
        cases hex : execute_sql env.dbExec (env.synth question
            ((lookupKV kvs "table").getD .null) ((lookupKV kvs "column").getD .null)) with
        | mk o e =>
          cases e with
          | some err =>
            simp only [stage2, candTry, htc, Bool.not_true, Bool.false_eq_true,
              if_false, if_true, hex]
            exact hrest
          | none =>
            cases o with
            | none =>
              simp only [stage2, candTry, htc, Bool.not_true, Bool.false_eq_true,
                if_false, if_true, hex]
              exact hrest
            | some rs =>
              cases rs with
              | nil =>
                simp only [stage2, candTry, htc, Bool.not_true, Bool.false_eq_true,
                  if_false, if_true, hex]
                exact hrest
              | cons r rtl =>
                simp only [stage2, candTry, htc, Bool.not_true, Bool.false_eq_true,
                  if_false, if_true, hex]
    | null => simp [isObjB] at hc
    | bool b => simp [isObjB] at hc
    | num q => simp [isObjB] at hc
    | str s => simp [isObjB] at hc
    | arr xs => simp [isObjB] at hc

theorem findSome?_eq_some_first {α β : Type} (f : α → Option β) :
    ∀ (l : List α) (b : β), l.findSome? f = some b →
      ∃ i, ∃ h : i < l.length, f (l.get ⟨i, h⟩) = some b ∧
        ∀ j, ∀ hj : j < l.length, j < i → f (l.get ⟨j, hj⟩) = none := by
  intro l
  induction l with
  | nil => intro b h; simp at h
  | cons a as ih =>
    intro b h
    rw [List.findSome?_cons] at h
    cases hfa : f a with
    | some b0 =>
      rw [hfa] at h
      refine ⟨0, Nat.succ_pos _, ?_, ?_⟩
      · exact hfa.trans h
      · intro j hj hj0
        exact absurd hj0 (Nat.not_lt_zero j)
    | none =>
      rw [hfa] at h
      obtain ⟨i, hi, hfi, hprev⟩ := ih b h
      refine ⟨i + 1, Nat.succ_lt_succ hi, hfi, ?_⟩
      intro j hj hji
      cases j with
      | zero => exact hfa
      | succ j0 =>
        exact hprev j0 (Nat.lt_of_succ_lt_succ hj) (Nat.lt_of_succ_lt_succ hji)

theorem understand_intent_cases (question : String) :
    understand_intent question = "chat" ∨ understand_intent question = "data" := by
  unfold understand_intent
  cases general_indicators.any
      (fun indicator => containsSubstr indicator (pyLower question)) with
  | true => exact Or.inl rfl
  | false => exact Or.inr rfl

theorem ask_chat_eq (env : Env) (hist : List Turn) (question : String)
    (h : understand_intent question = "chat") :
    ask env hist question = .ok (env.chatAnswer question hist,
      hist ++ [userTurn question,
        assistantTurn (env.chatAnswer question hist) none]) := by
  unfold ask
  rw [h, if_pos (by decide)]

theorem ask_plan_none (env : Env) (hist : List Turn) (question : String)
    (hq : understand_intent question = "data")
    (hp : env.planParse question hist = none) :
    ask env hist question = .ok (planFailMsg, hist) := by
  unfold ask
  rw [hq, if_neg (by decide), hp]
  rfl

theorem ask_plan_nokey (env : Env) (hist : List Turn) (question : String)
    (kvs : List (String × Json))
    (hq : understand_intent question = "data")
    (hp : env.planParse question hist = some (.obj kvs))
    (hk : lookupKV kvs "candidates" = none) :
    ask env hist question = .ok (planFailMsg, hist) := by
  unfold ask
  rw [hq, if_neg (by decide), hp]
  simp only [askPlan]
  rw [hk]

theorem ask_data_eq (env : Env) (hist : List Turn) (question : String)
    (kvs : List (String × Json)) (cands : List Json)
    (hq : understand_intent question = "data")
    (hp : env.planParse question hist = some (.obj kvs))
    (hk : lookupKV kvs "candidates" = some (.arr cands)) :
    ask env hist question =
      match stage2 env question cands with
      | .error e => .error e
      | .ok none => .ok (noAnswerMsg, hist)
      | .ok (some (rows, sql)) =>
        .ok (format_conversational_response question rows,
          hist ++ [userTurn question,
            assistantTurn (format_conversational_response question rows) (some sql)]) := by
  unfold ask
  rw [hq, if_neg (by decide), hp]
  simp only [askPlan]
  rw [hk]
  rfl

/-! ### Claim theorems -/

section

attribute [local semireducible] Rat.mul Rat.add Rat.sub Rat.inv

/-- C1: the Safety Gate in `_execute_sql` rejects a query — returning the
restricted-keywords error without consulting the executor — if and only
if the uppercased query text contains one of the eight keywords DELETE,
DROP, UPDATE, INSERT, TRUNCATE, ALTER, EXEC, GRANT as a raw substring;
every other query is accepted and passed to execution. -/
theorem safety_gate_characterization (dbExec : String → DbResult) (sql : String) :
    (gateBlocked sql = true ↔
      ∃ kw ∈ disallowed_keywords, kw.data <:+: (pyUpper sql).data)
    ∧ (gateBlocked sql = true →
        ∀ dbExec2 : String → DbResult,
          execute_sql dbExec sql = (none, some restrictedKeywordsMsg) ∧
          execute_sql dbExec sql = execute_sql dbExec2 sql)
    ∧ (gateBlocked sql = false →
        execute_sql dbExec sql =
          match dbExec sql with
          | .rows rs => (some rs, none)
          | .err e => (none, some ("SQL Error: " ++ e))) := by
  refine ⟨gateBlocked_iff sql, ?_, ?_⟩
  · intro h dbExec2
    constructor
    · unfold execute_sql
      rw [if_pos h]
    · unfold execute_sql
      rw [if_pos h, if_pos h]
  · intro h
    unfold execute_sql
    rw [if_neg (by simp [h])]

/-- Witness for C1 at concrete queries: a query containing DROP is
blocked with the restricted-keywords error, a plain SELECT is passed to
the executor and returns its rows. -/
theorem safety_gate_characterization_witness :
    gateBlocked "DROP TABLE users" = true ∧
    execute_sql (fun _ => .rows []) "DROP TABLE users" =
      (none, some restrictedKeywordsMsg) ∧
    gateBlocked "SELECT 1" = false ∧
    execute_sql (fun _ => .rows [[("A", .vInt 1)]]) "SELECT 1" =
      (some [[("A", .vInt 1)]], none) := by
  refine ⟨by decide, ?_, by decide, ?_⟩
  · exact (((safety_gate_characterization (fun _ => .rows []) "DROP TABLE users").2.1
      (by decide)) (fun _ => .rows [])).1
  · exact ((safety_gate_characterization (fun _ => .rows [[("A", .vInt 1)]])
      "SELECT 1").2.2 (by decide)).trans rfl

/-- C3: the Intent Router `_understand_intent` classifies a question as
conversational exactly when its lowercased form contains one of the
fixed indicator phrases as a substring, regardless of the question's
casing; every non-matching question is classified as data-seeking. -/
theorem intent_router_characterization (question : String) :
    (understand_intent question = "chat" ↔
      ∃ p ∈ general_indicators, p.data <:+: (pyLower question).data)
    ∧ ((¬ ∃ p ∈ general_indicators, p.data <:+: (pyLower question).data) →
        understand_intent question = "data") := by
  refine ⟨understand_intent_chat_iff question, ?_⟩
  intro h
  cases understand_intent_cases question with
  | inl hc => exact absurd ((understand_intent_chat_iff question).mp hc) h
  | inr hd => exact hd

/-- Witness for C3: a mixed-case greeting is routed to chat via the
"hello" indicator, and a metric question with no indicator substring is
routed to data. -/
theorem intent_router_characterization_witness :
    understand_intent "HeLLo over there" = "chat" ∧
    understand_intent "total production count for macline" = "data" := by
  constructor
  · exact (intent_router_characterization "HeLLo over there").1.mpr
      ⟨"hello", by decide, ⟨[], [' ', 'o', 'v', 'e', 'r', ' ', 't', 'h', 'e', 'r', 'e'], by decide⟩⟩
  · exact (intent_router_characterization "total production count for macline").2
      (fun hex =>
        absurd ((intent_router_characterization "total production count for macline").1.mpr hex)
          (by decide))

/-- C5: `_format_time_duration` annotates values above 3600 with an
hours equivalent and values above 60 (but not above 3600) with a minutes
equivalent, and renders everything else as raw seconds; on a single-row
single-column result of 5400.0 with a question containing "downtime" and
"average" the formatted answer contains "5,400 seconds" and "1.5 hours". -/
theorem duration_formatting_thresholds (x : Rat) :
    (3600 < x → format_time_duration (.vNum x) =
      pyFormatComma0 x ++ " seconds (~" ++ pyFormat1 (x / 3600) ++ " hours)")
    ∧ (60 < x → x ≤ 3600 → format_time_duration (.vNum x) =
      pyFormatComma0 x ++ " seconds (~" ++ pyFormat1 (x / 60) ++ " minutes)")
    ∧ (x ≤ 60 → format_time_duration (.vNum x) = pyFormatComma0 x ++ " seconds")
    ∧ containsSubstr "5,400 seconds"
        (format_conversational_response "what is the average downtime"
          [[("v", .vNum 5400)]]) = true
    ∧ containsSubstr "1.5 hours"
        (format_conversational_response "what is the average downtime"
          [[("v", .vNum 5400)]]) = true := by
  refine ⟨?_, ?_, ?_, by decide, by decide⟩
  · intro h
    simp only [format_time_duration, pyFloat]
    rw [if_pos h]
  · intro h60 h36
    simp only [format_time_duration, pyFloat]
    rw [if_neg (not_lt.mpr h36), if_pos h60]
  · intro h
    simp only [format_time_duration, pyFloat]
    rw [if_neg (not_lt.mpr (le_trans h (by norm_num))), if_neg (not_lt.mpr h)]

/-- Witness for C5 at 5400: the hours branch fires and renders
"5,400 seconds (~1.5 hours)". -/
theorem duration_formatting_thresholds_witness :
    (3600 : Rat) < 5400 ∧
    format_time_duration (.vNum 5400) =
      pyFormatComma0 5400 ++ " seconds (~" ++ pyFormat1 ((5400 : Rat) / 3600) ++ " hours)" ∧
    format_time_duration (.vNum 5400) = "5,400 seconds (~1.5 hours)" :=
  ⟨by decide, (duration_formatting_thresholds 5400).1 (by decide), by decide⟩

/-- C6 (counterexample): on a column containing "MacLine2A" and
"mac_line_2b" the learner produces no entry at all for the tokens "2",
"a" or "b" — the `len(clean_token) > 2` filter drops them — refuting the
claim that these tokens map to the original values. -/
theorem vocabulary_short_tokens_absent :
    miLookup (learn_machines_from_column [] ["MacLine2A", "mac_line_2b"]) "2" = none ∧
    miLookup (learn_machines_from_column [] ["MacLine2A", "mac_line_2b"]) "a" = none ∧
    miLookup (learn_machines_from_column [] ["MacLine2A", "mac_line_2b"]) "b" = none := by
  refine ⟨by decide, by decide, by decide⟩

/-- C6 (amended): on a column containing "MacLine2A" and "mac_line_2b"
the learner produces the tokens "mac" and "line", each mapping to a set
of canonical names containing the respective original value (here both
values); the tokens "2", "a" and "b" are dropped by the length filter
and get no entry. -/
theorem vocabulary_long_tokens_present :
    miLookup (learn_machines_from_column [] ["MacLine2A", "mac_line_2b"]) "mac"
      = some ["MacLine2A", "mac_line_2b"] ∧
    miLookup (learn_machines_from_column [] ["MacLine2A", "mac_line_2b"]) "line"
      = some ["MacLine2A", "mac_line_2b"] := by
  refine ⟨by decide, by decide⟩

end

section

attribute [local semireducible] Rat.mul Rat.add Rat.sub Rat.inv

/-- C2: on the data branch with a parsed candidate list, `ask` tries the
candidates in list order, answers from exactly the first candidate whose
query passes the gate, executes without error and returns a non-empty
row set (all earlier candidates having failed), and returns the uniform
no-definitive-answer message with no data when every candidate fails. -/
theorem ask_iteration_first_success (env : Env) (hist : List Turn) (question : String)
    (kvs : List (String × Json)) (cands : List Json)
    (hq : understand_intent question = "data")
    (hplan : env.planParse question hist = some (.obj kvs))
    (hc : lookupKV kvs "candidates" = some (.arr cands))
    (hobj : ∀ c ∈ cands, isObjB c = true) :
    (∀ rows sql, List.findSome? (candTry env question) cands = some (rows, sql) →
      ask env hist question = .ok
        (format_conversational_response question rows,
          hist ++ [userTurn question,
            assistantTurn (format_conversational_response question rows) (some sql)]) ∧
      ∃ i, ∃ hi : i < cands.length,
        candTry env question (cands.get ⟨i, hi⟩) = some (rows, sql) ∧
        ∀ j, ∀ hj : j < cands.length, j < i →
          candTry env question (cands.get ⟨j, hj⟩) = none)
    ∧ ((∀ c ∈ cands, candTry env question c = none) →
        ask env hist question = .ok (noAnswerMsg, hist)) := by
  have hask := ask_data_eq env hist question kvs cands hq hplan hc
  have hstage := stage2_eq_findSome env question cands hobj
  constructor
  · intro rows sql hfind
    constructor
    · rw [hask, hstage, hfind]
    · exact findSome?_eq_some_first (candTry env question) cands (rows, sql) hfind
  · intro hall
    rw [hask, hstage, List.findSome?_eq_none_iff.mpr hall]

/-- Witness for C2 on `envC2`: candidate 1 is blocked by the gate,
candidate 2 returns no rows, and the final answer is formatted from
candidate 3's single row with its SQL recorded in the history. -/
theorem ask_iteration_first_success_witness :
    understand_intent "total production count" = "data" ∧
    format_conversational_response "total production count" [[("CNT", .vInt 7)]] =
      "ðŸ“Š The total production count is **7 units**." ∧
    ask envC2 [] "total production count" = .ok
      (format_conversational_response "total production count" [[("CNT", .vInt 7)]],
        [userTurn "total production count",
          assistantTurn
            (format_conversational_response "total production count" [[("CNT", .vInt 7)]])
            (some "SELECT good")]) := by
  refine ⟨by decide, by decide, ?_⟩
  exact ((ask_iteration_first_success envC2 [] "total production count" _ _
    (by decide) rfl rfl (by decide)).1 [[("CNT", .vInt 7)]] "SELECT good" rfl).1

/-- C4 (amended): when the planning output is invalid JSON or a JSON
object lacking the `candidates` key, `ask` immediately returns the
rephrase-your-question message with no retry, no fallback and no query
execution (the conclusion holds for every synthesizer and executor); a
planning output parsing to a non-object JSON value instead raises an
uncaught `TypeError`. -/
theorem planning_failure_object_message (env : Env) (hist : List Turn) (question : String)
    (hq : understand_intent question = "data")
    (hbad : env.planParse question hist = none ∨
      ∃ kvs, env.planParse question hist = some (.obj kvs) ∧
        lookupKV kvs "candidates" = none) :
    ask env hist question = .ok (planFailMsg, hist) := by
  rcases hbad with h | ⟨kvs, h1, h2⟩
  · exact ask_plan_none env hist question hq h
  · exact ask_plan_nokey env hist question kvs hq h1 h2

/-- Witness for C4 (amended) on `envC4b`, whose planning output does not
parse. -/
theorem planning_failure_object_message_witness :
    understand_intent "total production count" = "data" ∧
    ask envC4b [] "total production count" = .ok (planFailMsg, []) :=
  ⟨by decide,
   planning_failure_object_message envC4b [] "total production count" (by decide) (Or.inl rfl)⟩

/-- C4 (counterexample): a planning output that parses to a JSON array —
valid JSON lacking the `candidates` key — makes `ask` raise an uncaught
`TypeError` instead of returning the rephrase message. -/
theorem planning_nonobject_typeerror :
    ask envC4 [] "total production count" = .error .typeError ∧
    ∀ hist2 : List Turn,
      ask envC4 [] "total production count" ≠ .ok (planFailMsg, hist2) := by
  refine ⟨rfl, ?_⟩
  intro hist2 hcontra
  rw [show ask envC4 [] "total production count" = .error .typeError from rfl] at hcontra
  exact Except.noConfusion hcontra

end

section

attribute [local semireducible] Rat.mul Rat.add Rat.sub Rat.inv

/-- C7 (amended): classification of a non-empty result set is purely
structural: a single row with a single column always renders through the
scalar template; several rows always render through the listing
template; a single row with several columns renders through the
machine-plus-metric template only when its guards fire, and otherwise
falls through to the raw `json.dumps` fallback. -/
theorem formatter_shape_dispatch (question : String) (result : List Row)
    (hne : result ≠ []) :
    (∀ kv : String × Val, result = [[kv]] →
      format_conversational_response question result =
        case1Render (pyLower question) kv.2)
    ∧ (∀ row : Row, result = [row] → 1 < row.length →
        format_conversational_response question result =
          (case2Render (pyLower question) row).getD (fallbackRender result))
    ∧ (1 < result.length →
        format_conversational_response question result = case3Render result) := by
  refine ⟨?_, ?_, ?_⟩
  · rintro kv rfl
    rfl
  · rintro row rfl hrow
    cases row with
    | nil => simp at hrow
    | cons a tl =>
      cases tl with
      | nil => simp at hrow
      | cons b tl2 => rfl
  · intro hlen
    cases result with
    | nil => simp at hlen
    | cons r0 rtl =>
      cases rtl with
      | nil => simp at hlen
      | cons r1 rtl2 => rfl

/-- Witness for C7 (amended): a single-row single-column downtime result
renders through the scalar template. -/
theorem formatter_shape_dispatch_witness :
    ([[("v", Val.vNum 5400)]] : List Row) ≠ [] ∧
    format_conversational_response "what is the average downtime"
        [[("v", Val.vNum 5400)]] =
      case1Render (pyLower "what is the average downtime") (Val.vNum 5400) ∧
    case1Render (pyLower "what is the average downtime") (Val.vNum 5400) =
      "â±ï¸ The average downtime is **5,400 seconds (~1.5 hours)**." :=
  ⟨by decide,
   (formatter_shape_dispatch "what is the average downtime" _ (by decide)).1
     ("v", Val.vNum 5400) rfl,
   by decide⟩

/-- C7 (counterexample): a single row with two columns and no machine
identifier renders as the raw `json.dumps` fallback, not as an
entity-plus-metric phrase — the single-row multi-column case is not
always the entity template. -/
theorem formatter_single_row_fallback :
    format_conversational_response "what data" [[("A", .vStr "x"), ("B", .vStr "y")]] =
      "Here\x27s what I found:\n```\n[\n  \x7b\n    \"A\": \"x\",\n    \"B\": \"y\"\n  \x7d\n]\n```" ∧
    format_conversational_response "what data" [[("A", .vStr "x"), ("B", .vStr "y")]] =
      fallbackRender [[("A", .vStr "x"), ("B", .vStr "y")]] :=
  ⟨by decide, by decide⟩

/-- C8: for every result set with more than one row the formatter
reports the true total row count and lists only the first five rows. -/
theorem listing_reports_total_and_top5 (question : String) (result : List Row)
    (h : 1 < result.length) :
    format_conversational_response question result =
      "ðŸ“‹ Found " ++ toString result.length ++
        " results. Here are the top 5:\n\n" ++
        String.intercalate "\n" ((result.take 5).enum.map (fun p =>
          toString (p.1 + 1) ++ ". " ++
            String.intercalate ", " (p.2.map (fun kv => kv.1 ++ ": " ++ pyStr kv.2)))) ∧
    (result.take 5).length = min 5 result.length := by
  constructor
  · cases result with
    | nil => simp at h
    | cons r0 rtl =>
      cases rtl with
      | nil => simp at h
      | cons r1 rtl2 => rfl
  · exact List.length_take 5 result

/-- Witness for C8 on a result of exactly eight rows: the header says
"Found 8 results" and exactly five rows are listed. -/
theorem listing_reports_total_and_top5_witness :
    1 < eightRows.length ∧
    format_conversational_response "list machines" eightRows =
      "ðŸ“‹ Found " ++ toString eightRows.length ++
        " results. Here are the top 5:\n\n" ++
        String.intercalate "\n" ((eightRows.take 5).enum.map (fun p =>
          toString (p.1 + 1) ++ ". " ++
            String.intercalate ", " (p.2.map (fun kv => kv.1 ++ ": " ++ pyStr kv.2)))) ∧
    containsSubstr "Found 8 results"
      (format_conversational_response "list machines" eightRows) = true ∧
    (eightRows.take 5).length = 5 ∧
    format_conversational_response "list machines" eightRows =
      "ðŸ“‹ Found 8 results. Here are the top 5:\n\n1. M: m1\n2. M: m2\n3. M: m3\n4. M: m4\n5. M: m5" :=
  ⟨by decide,
   (listing_reports_total_and_top5 "list machines" eightRows (by decide)).1,
   by decide, by decide, by decide⟩

/-- C9 (amended): `ask` catches every failure in the handled classes —
unparsable planning output, a missing `candidates` key on an object
output, gate rejections, database errors and empty results — and always
returns a string when the planning output either fails to parse or
parses to an object whose `candidates` value, when present, is a list of
objects; other planning output shapes raise uncaught exceptions. -/
theorem ask_returns_string_on_wellformed_output (env : Env) (hist : List Turn)
    (question : String)
    (hplan : env.planParse question hist = none ∨
      ∃ kvs, env.planParse question hist = some (.obj kvs) ∧
        ∀ cval, lookupKV kvs "candidates" = some cval →
          ∃ cands, cval = .arr cands ∧ ∀ c ∈ cands, isObjB c = true) :
    ∃ out, ask env hist question = .ok out := by
  cases understand_intent_cases question with
  | inl hchat => exact ⟨_, ask_chat_eq env hist question hchat⟩
  | inr hdata =>
    rcases hplan with h | ⟨kvs, h1, hwf⟩
    · exact ⟨_, ask_plan_none env hist question hdata h⟩
    · cases hcv : lookupKV kvs "candidates" with
      | none => exact ⟨_, ask_plan_nokey env hist question kvs hdata h1 hcv⟩
      | some cval =>
        obtain ⟨cands, rfl, hobj⟩ := hwf cval hcv
        have hask := ask_data_eq env hist question kvs cands hdata h1 hcv
        have hstage := stage2_eq_findSome env question cands hobj
        rw [hask, hstage]
        cases List.findSome? (candTry env question) cands with
        | none => exact ⟨_, rfl⟩
        | some p =>
          obtain ⟨rows, sql⟩ := p
          exact ⟨_, rfl⟩

/-- Witness for C9 (amended) on `envC9good`, whose planning output is an
object without a `candidates` key. -/
theorem ask_returns_string_on_wellformed_output_witness :
    ∃ out, ask envC9good [] "total production count" = .ok out :=
  ask_returns_string_on_wellformed_output envC9good [] "total production count"
    (Or.inr ⟨[], rfl, fun _ hcv => Option.noConfusion hcv⟩)

/-- C9 (counterexample): with a planning output that parses to a JSON
array — a possible behaviour of the language model — `ask` raises an
uncaught `TypeError` instead of returning a string. -/
theorem ask_uncaught_typeerror :
    ask envC9bad [] "total production count" = .error .typeError := rfl

end

section

attribute [local semireducible] Rat.mul Rat.add Rat.sub Rat.inv

/-- C10: a data question ending in a planning failure or in candidate
exhaustion returns its failure message with `conversation_history`
unchanged, and whenever `ask` returns normally the history is either
unchanged or extended by exactly the user turn and the assistant turn —
the latter only on the chat branch (no `sql_executed`) or on an answered
data question (with `sql_executed`). -/
theorem history_update_policy (env : Env) (hist : List Turn) (question : String) :
    (understand_intent question = "data" →
      (env.planParse question hist = none ∨
        ∃ kvs, env.planParse question hist = some (.obj kvs) ∧
          lookupKV kvs "candidates" = none) →
      ask env hist question = .ok (planFailMsg, hist))
    ∧ (understand_intent question = "data" →
        ∀ kvs cands, env.planParse question hist = some (.obj kvs) →
          lookupKV kvs "candidates" = some (.arr cands) →
          (∀ c ∈ cands, isObjB c = true) →
          (∀ c ∈ cands, candTry env question c = none) →
          ask env hist question = .ok (noAnswerMsg, hist))
    ∧ (∀ answer hist2, ask env hist question = .ok (answer, hist2) →
        hist2 = hist ∨
        (understand_intent question = "chat" ∧
          hist2 = hist ++ [userTurn question, assistantTurn answer none]) ∨
        ∃ sql, hist2 = hist ++ [userTurn question, assistantTurn answer (some sql)]) := by
  refine ⟨?_, ?_, ?_⟩
  · intro hq hbad
    rcases hbad with h | ⟨kvs, h1, h2⟩
    · exact ask_plan_none env hist question hq h
    · exact ask_plan_nokey env hist question kvs hq h1 h2
  · intro hq kvs cands h1 h2 hobj hall
    rw [ask_data_eq env hist question kvs cands hq h1 h2,
      stage2_eq_findSome env question cands hobj,
      List.findSome?_eq_none_iff.mpr hall]
  · intro answer hist2 hask
    cases understand_intent_cases question with
    | inl hchat =>
      rw [ask_chat_eq env hist question hchat] at hask
      simp only [Except.ok.injEq, Prod.mk.injEq] at hask
      obtain ⟨ha, hh⟩ := hask
      subst ha
      subst hh
      exact Or.inr (Or.inl ⟨hchat, rfl⟩)
    | inr hdata =>
      unfold ask at hask
      rw [hdata, if_neg (by decide)] at hask
      cases hp : env.planParse question hist with
      | none =>
        rw [hp] at hask
        simp only [askPlan, Except.ok.injEq, Prod.mk.injEq] at hask
        exact Or.inl hask.2.symm
      | some j =>
        rw [hp] at hask
        cases j with
        | obj kvs =>
          simp only [askPlan] at hask
          cases hk : lookupKV kvs "candidates" with
          | none =>
            simp only [hk, Except.ok.injEq, Prod.mk.injEq] at hask
            exact Or.inl hask.2.symm
          | some cval =>
            simp only [hk] at hask
            cases hit : pyIterElems cval with
            | error e =>
              simp only [hit] at hask
              exact Except.noConfusion hask
            | ok cands =>
              simp only [hit] at hask
              cases hst : stage2 env question cands with
              | error e =>
                simp only [hst] at hask
                exact Except.noConfusion hask
              | ok o =>
                simp only [hst] at hask
                cases o with
                | none =>
                  simp only [Except.ok.injEq, Prod.mk.injEq] at hask
                  exact Or.inl hask.2.symm
                | some p =>
                  obtain ⟨rows, sql⟩ := p
                  simp only [Except.ok.injEq, Prod.mk.injEq] at hask
                  obtain ⟨ha, hh⟩ := hask
                  subst ha
                  subst hh
                  exact Or.inr (Or.inr ⟨sql, rfl⟩)
        | null => exact Except.noConfusion hask
        | bool b => exact Except.noConfusion hask
        | num q => exact Except.noConfusion hask
        | str s => exact Except.noConfusion hask
        | arr xs => exact Except.noConfusion hask

/-- Witness for C10 on `envC10`, whose planning output does not parse:
the failure message is returned and the history is unchanged. -/
theorem history_update_policy_witness :
    understand_intent "total production count" = "data" ∧
    ask envC10 [] "total production count" = .ok (planFailMsg, []) :=
  ⟨by decide,
   (history_update_policy envC10 [] "total production count").1 (by decide) (Or.inl rfl)⟩

end
